import Mathlib

/-!
Shallow embedding of `src/calc.py` (PythonCalc, a CLI calculator that
evaluates arithmetic expressions by parsing them with Python's `ast`
module and walking the tree against an operator/function allow-list).

Modelling conventions:
* Python numbers are `PyVal`: arbitrary-precision integers are `ℤ`;
  Python `float`s are modelled as exact rationals `ℚ` (IEEE-754 rounding
  is not modelled; every concrete value appearing in a theorem below is
  exactly representable, and the properties proved are about success,
  failure, result type and sign, all of which are rounding-independent).
  Complex results (`ast.Num` matching a complex literal, or a fractional
  power of a negative float) are outside the model.
* The transcendental routines of the C math library (`math.sin`,
  `math.cos`, `math.tan`, `math.log`, `math.sqrt`, and non-integer
  float powers) have irrational values, so their numeric value is
  abstracted as a `MathOracle` parameter; their argument counts and
  domain errors — the only facts any theorem below relies on — are
  embedded concretely, and all general theorems hold for every oracle.
* Python exceptions become the `PyErr` error type of an `Except` result;
  `eval_expr`'s `try/except Exception` is the wrap in `eval_expr` below.
* `ast.parse(expr, mode='eval')` is embedded for the arithmetic fragment
  of Python's expression grammar that the calculator's vocabulary can
  reach: numeric literals (decimal / hex / octal / binary, underscores,
  fraction, exponent), identifiers, `+ - * / // % ** ^ ~ ( ) ,` and
  whitespace.  Python constructs outside this fragment (strings,
  comparisons, lambdas, attribute access, ...) lex or parse to an error
  here, while real Python may parse them and then fail the evaluator's
  allow-list; both pipelines fail on such input, which is the only
  behavior any claim depends on.  The lexer and parser use fuel that is
  provably sufficient for the token count, mirroring that CPython's
  parser always terminates.
-/

namespace PythonCalc

/-- Python numeric value: an `int` (arbitrary precision) or a `float`
(modelled as an exact rational, see the file header). -/
inductive PyVal
  | intV (i : ℤ)
  | floatV (x : ℚ)
  deriving DecidableEq

/-- Python exception value, restricted to the exception classes that the
calculator's pipeline can raise: `ValueError`, `TypeError`,
`ZeroDivisionError` and `SyntaxError`, each carrying its message. -/
inductive PyErr
  | valueError (msg : String)
  | typeError (msg : String)
  | zeroDivisionError (msg : String)
  | syntaxError (msg : String)
  deriving DecidableEq

/-- Python `str(e)` for the exceptions above: the carried message. -/
def pyMessage : PyErr → String
  | .valueError m => m
  | .typeError m => m
  | .zeroDivisionError m => m
  | .syntaxError m => m

/-- Oracle for the irrational-valued routines of the C math library
(`libm`), which cannot be given exact rational definitions.  Evaluation
is parametric in the oracle; every general theorem below holds for every
oracle, and concrete witnesses use the placeholder `O0`. -/
structure MathOracle where
  sin : ℚ → ℚ
  cos : ℚ → ℚ
  tan : ℚ → ℚ
  log : ℚ → ℚ
  sqrt : ℚ → ℚ
  powf : ℚ → ℚ → ℚ
  pi : ℚ
  e : ℚ

/-- Type of a Python callable as the evaluator sees it: a function from
the evaluated argument list to a value or a raised exception. -/
abbrev PyFunc := List PyVal → Except PyErr PyVal

/-- True exactly when an evaluation result is a success. -/
def exceptIsOk : Except PyErr PyVal → Bool
  | .ok _ => true
  | .error _ => false

instance : DecidableEq (Except PyErr PyVal) := fun a b =>
  match a, b with
  | .ok x, .ok y =>
      if h : x = y then isTrue (by rw [h]) else isFalse (by simp [h])
  | .error x, .error y =>
      if h : x = y then isTrue (by rw [h]) else isFalse (by simp [h])
  | .ok _, .error _ => isFalse (by simp)
  | .error _, .ok _ => isFalse (by simp)

/-- Numeric value of a `PyVal` (Python's implicit int-to-float coercion). -/
def PyVal.toQ : PyVal → ℚ
  | .intV i => (i : ℚ)
  | .floatV x => x

/-- True exactly for `float` values. -/
def PyVal.isFloatV : PyVal → Bool
  | .intV _ => false
  | .floatV _ => true

/-- Integer power on `ℚ`, written out so that it reduces in the kernel. -/
def qpowInt (x : ℚ) (n : ℤ) : ℚ :=
  if 0 ≤ n then x ^ n.toNat else (x ^ (-n).toNat)⁻¹

/-- Python `+` (`operator.add`): int+int stays int, otherwise float. -/
def pyAdd : PyVal → PyVal → PyVal
  | .intV a, .intV b => .intV (a + b)
  | a, b => .floatV (a.toQ + b.toQ)

/-- Python `-` (`operator.sub`). -/
def pySub : PyVal → PyVal → PyVal
  | .intV a, .intV b => .intV (a - b)
  | a, b => .floatV (a.toQ - b.toQ)

/-- Python `*` (`operator.mul`). -/
def pyMul : PyVal → PyVal → PyVal
  | .intV a, .intV b => .intV (a * b)
  | a, b => .floatV (a.toQ * b.toQ)

/-- Python unary `-` (`operator.neg`). -/
def pyNeg : PyVal → PyVal
  | .intV i => .intV (-i)
  | .floatV x => .floatV (-x)

/-- Python `/` (`operator.truediv`): always true division producing a
float; raises `ZeroDivisionError` on a zero divisor (for ints and for
floats alike — CPython raises here instead of returning an infinity). -/
def pyDiv (a b : PyVal) : Except PyErr PyVal :=
  match a, b with
  | .intV i, .intV j =>
      if j = 0 then .error (.zeroDivisionError "division by zero")
      else .ok (.floatV ((i : ℚ) / (j : ℚ)))
  | _, _ =>
      if b.toQ = 0 then .error (.zeroDivisionError "float division by zero")
      else .ok (.floatV (a.toQ / b.toQ))

/-- Python `%` (`operator.mod`): floor modulo, the sign of the result
follows the divisor.  `Int.fmod` is exactly Python's `%` on ints, and
`x - y * ⌊x / y⌋` is Python's `%` on floats (up to IEEE rounding).
Raises `ZeroDivisionError` on a zero divisor. -/
def pyMod (a b : PyVal) : Except PyErr PyVal :=
  match a, b with
  | .intV i, .intV j =>
      if j = 0 then .error (.zeroDivisionError "integer modulo by zero")
      else .ok (.intV (Int.fmod i j))
  | _, _ =>
      if b.toQ = 0 then .error (.zeroDivisionError "float modulo")
      else .ok (.floatV (a.toQ - b.toQ * (⌊a.toQ / b.toQ⌋ : ℤ)))

/-- Python `**` (`operator.pow`): int ** nonnegative int stays int;
int ** negative int is a float; `0 ** negative` raises
`ZeroDivisionError`; a non-integer exponent of a float gives an
irrational (or, for a negative base, complex) value, abstracted through
the oracle's `powf`. -/
def pyPow (O : MathOracle) (a b : PyVal) : Except PyErr PyVal :=
  match a, b with
  | .intV i, .intV j =>
      if 0 ≤ j then .ok (.intV (i ^ j.toNat))
      else if i = 0 then
        .error (.zeroDivisionError "0.0 cannot be raised to a negative power")
      else .ok (.floatV (qpowInt (i : ℚ) j))
  | _, _ =>
      let x := a.toQ
      let y := b.toQ
      if y.den = 1 then
        if x = 0 ∧ y.num < 0 then
          .error (.zeroDivisionError "0.0 cannot be raised to a negative power")
        else .ok (.floatV (qpowInt x y.num))
      else .ok (.floatV (O.powf x y))

/-- The binary operator classes of Python's `ast` module that can label
an `ast.BinOp` node. -/
inductive BinKind
  | add | sub | mult | div | pow | mod
  | floorDiv | bitXor | bitOr | bitAnd | lshift | rshift | matMult
  deriving DecidableEq

/-- The unary operator classes of Python's `ast` module that can label
an `ast.UnaryOp` node. -/
inductive UnKind
  | usub | uadd | invert | notOp
  deriving DecidableEq

/-- Membership of a binary operator class in the `SAFE_OPERATORS` dict
of `calc.py` (its keys are `Add, Sub, Mult, Div, Pow, Mod, USub`). -/
def SAFE_OPERATORS_bin : BinKind → Bool
  | .add | .sub | .mult | .div | .pow | .mod => true
  | _ => false

/-- Membership of a unary operator class in the `SAFE_OPERATORS` dict of
`calc.py`: of the unary classes only `USub` is a key. -/
def SAFE_OPERATORS_un : UnKind → Bool
  | .usub => true
  | _ => false

/-- Application `SAFE_OPERATORS[op_type](left, right)` for the binary
operator classes present in the dict (the remaining kinds are
unreachable because the evaluator checks membership first). -/
def applyBin (O : MathOracle) (op : BinKind) (a b : PyVal) : Except PyErr PyVal :=
  match op with
  | .add => .ok (pyAdd a b)
  | .sub => .ok (pySub a b)
  | .mult => .ok (pyMul a b)
  | .div => pyDiv a b
  | .pow => pyPow O a b
  | .mod => pyMod a b
  | _ => .error (.valueError "Unsafe or unsupported expression.")

/-- Wrapper for a Python callable declared with exactly one positional
parameter: any other argument count raises `TypeError` before the body
runs. -/
def arity1 (msg : String) (g : PyVal → Except PyErr PyVal) : PyFunc
  | [a] => g a
  | _ => .error (.typeError msg)

/-- Wrapper for a Python callable accepting one or two positional
arguments (second optional). -/
def arity12 (msg : String) (g1 : PyVal → Except PyErr PyVal)
    (g2 : PyVal → PyVal → Except PyErr PyVal) : PyFunc
  | [a] => g1 a
  | [a, b] => g2 a b
  | _ => .error (.typeError msg)

/-- Built-in `math.sin`. -/
def mathSin (O : MathOracle) : PyFunc :=
  arity1 "math.sin() takes exactly one argument"
    (fun a => .ok (.floatV (O.sin a.toQ)))

/-- Built-in `math.cos`. -/
def mathCos (O : MathOracle) : PyFunc :=
  arity1 "math.cos() takes exactly one argument"
    (fun a => .ok (.floatV (O.cos a.toQ)))

/-- Built-in `math.tan`. -/
def mathTan (O : MathOracle) : PyFunc :=
  arity1 "math.tan() takes exactly one argument"
    (fun a => .ok (.floatV (O.tan a.toQ)))

/-- Built-in `math.log`: one argument gives the natural log, a second
argument is the base (`log(x, b)` is computed as `log(x)/log(b)`, so a
base of 1 raises `ZeroDivisionError`); non-positive arguments raise
`ValueError: math domain error`. -/
def mathLog (O : MathOracle) : PyFunc :=
  arity12 "math.log() takes at most 2 arguments"
    (fun a =>
      if a.toQ ≤ 0 then .error (.valueError "math domain error")
      else .ok (.floatV (O.log a.toQ)))
    (fun a b =>
      if a.toQ ≤ 0 then .error (.valueError "math domain error")
      else if b.toQ ≤ 0 then .error (.valueError "math domain error")
      else if b.toQ = 1 then .error (.zeroDivisionError "float division by zero")
      else .ok (.floatV (O.log a.toQ / O.log b.toQ)))

/-- Built-in `math.sqrt`: negative arguments raise `ValueError`. -/
def mathSqrt (O : MathOracle) : PyFunc :=
  arity1 "math.sqrt() takes exactly one argument"
    (fun a =>
      if a.toQ < 0 then .error (.valueError "math domain error")
      else .ok (.floatV (O.sqrt a.toQ)))

/-- Built-in `abs`: preserves the numeric type of its argument. -/
def pyAbs : PyFunc :=
  arity1 "abs() takes exactly one argument"
    (fun a =>
      match a with
      | .intV i => .ok (.intV |i|)
      | .floatV x => .ok (.floatV |x|))

/-- Round-half-to-even to an integer, Python's rounding mode for
`round`. -/
def roundHalfEven (x : ℚ) : ℤ :=
  let f : ℤ := ⌊x⌋
  let r : ℚ := x - (f : ℚ)
  if r < 1/2 then f
  else if 1/2 < r then f + 1
  else if f % 2 = 0 then f else f + 1

/-- Built-in `round`: one argument rounds to an int (half-to-even); a
second argument gives the number of digits and preserves the argument's
type; a float digit count raises `TypeError`.  (CPython rounds the
decimal representation of the IEEE double; here the exact rational is
rounded.) -/
def pyRound : PyFunc :=
  arity12 "round() takes at most 2 arguments"
    (fun a =>
      match a with
      | .intV i => .ok (.intV i)
      | .floatV x => .ok (.intV (roundHalfEven x)))
    (fun a n =>
      match a, n with
      | _, .floatV _ =>
          .error (.typeError "'float' object cannot be interpreted as an integer")
      | .intV i, .intV n =>
          if 0 ≤ n then .ok (.intV i)
          else .ok (.intV (roundHalfEven ((i : ℚ) * qpowInt 10 n) * 10 ^ (-n).toNat))
      | .floatV x, .intV n =>
          .ok (.floatV ((roundHalfEven (x * qpowInt 10 n) : ℚ) * qpowInt 10 (-n))))

/-- The `SAFE_FUNCTIONS` dict of `calc.py`, as a name lookup. -/
def SAFE_FUNCTIONS (O : MathOracle) : String → Option PyFunc :=
  fun n =>
    if n = "sin" then some (mathSin O)
    else if n = "cos" then some (mathCos O)
    else if n = "tan" then some (mathTan O)
    else if n = "log" then some (mathLog O)
    else if n = "sqrt" then some (mathSqrt O)
    else if n = "abs" then some pyAbs
    else if n = "round" then some pyRound
    else none

/-- The `CONSTANTS` dict of `calc.py`: `pi`, `e`, and
`phi = (1 + 5 ** 0.5) / 2` (the float power `5 ** 0.5` goes through the
oracle, mirroring that its value is irrational). -/
def CONSTANTS (O : MathOracle) : String → Option ℚ :=
  fun n =>
    if n = "pi" then some O.pi
    else if n = "e" then some O.e
    else if n = "phi" then some ((1 + O.powf 5 (1/2)) / 2)
    else none

/-- The `PLUGINS` dict as populated by `load_plugins`: each registration
`PLUGINS[attr] = obj` overwrites any earlier entry for the same name, so
a later registration wins. -/
def registerPlugins (l : List (String × PyFunc)) : String → Option PyFunc :=
  l.foldl (fun acc p => fun n => if n = p.1 then some p.2 else acc n)
    (fun _ => none)

/-- The empty plugin registry (no plugin files loaded). -/
def noPlugins : String → Option PyFunc := fun _ => none

/-- Python expression tree as `_eval_node` receives it: the node kinds
the evaluator tests for, plus `other` standing for every remaining
`ast` node kind (strings, comparisons, lambdas, attribute access, ...),
none of which match any `isinstance` test in `_eval_node`. -/
inductive PyExpr
  | num (v : PyVal)
  | binOp (op : BinKind) (l r : PyExpr)
  | unaryOp (op : UnKind) (operand : PyExpr)
  | call (func : PyExpr) (args : List PyExpr)
  | name (id : String)
  | other

/-- The `getattr(node.func, 'id', None)` of the `ast.Call` branch: the
identifier when the callee is a bare name, `None` otherwise. -/
def funcId : PyExpr → Option String
  | .name s => some s
  | _ => none

mutual

/-- The recursive evaluator `_eval_node` of `calc.py`: numeric literals
return their value; `BinOp`/`UnaryOp` evaluate operands first and then
require the operator class to be a `SAFE_OPERATORS` key; `Call`
evaluates all arguments, then tries `SAFE_FUNCTIONS`, then `PLUGINS`;
`Name` is looked up in `CONSTANTS` only; everything else falls through
to `raise ValueError("Unsafe or unsupported expression.")`. -/
def _eval_node (O : MathOracle) (plugins : String → Option PyFunc) :
    PyExpr → Except PyErr PyVal
  | .num v => .ok v
  | .binOp op l r =>
      match _eval_node O plugins l with
      | .error e => .error e
      | .ok lv =>
          match _eval_node O plugins r with
          | .error e => .error e
          | .ok rv =>
              if SAFE_OPERATORS_bin op then applyBin O op lv rv
              else .error (.valueError "Unsafe or unsupported expression.")
  | .unaryOp op x =>
      match _eval_node O plugins x with
      | .error e => .error e
      | .ok v =>
          if SAFE_OPERATORS_un op then .ok (pyNeg v)
          else .error (.valueError "Unsafe or unsupported expression.")
  | .call f args =>
      match evalArgs O plugins args with
      | .error e => .error e
      | .ok vs =>
          match funcId f with
          | some n =>
              match SAFE_FUNCTIONS O n with
              | some fn => fn vs
              | none =>
                  match plugins n with
                  | some fn => fn vs
                  | none => .error (.valueError "Unsafe or unsupported expression.")
          | none => .error (.valueError "Unsafe or unsupported expression.")
  | .name n =>
      match CONSTANTS O n with
      | some v => .ok (.floatV v)
      | none => .error (.valueError "Unsafe or unsupported expression.")
  | .other => .error (.valueError "Unsafe or unsupported expression.")

/-- The argument list comprehension `[_eval_node(arg) for arg in
node.args]`: left-to-right, stopping at the first raised exception. -/
def evalArgs (O : MathOracle) (plugins : String → Option PyFunc) :
    List PyExpr → Except PyErr (List PyVal)
  | [] => .ok []
  | a :: rest =>
      match _eval_node O plugins a with
      | .error e => .error e
      | .ok v =>
          match evalArgs O plugins rest with
          | .error e => .error e
          | .ok vs => .ok (v :: vs)

end

/-- The evaluation allow-list at the level of a node's outermost shape:
numeric literal, allowed unary operator, allowed binary operator, call
to a name registered as a built-in or plugin function, or reference to a
registered constant.  Exactly the shapes for which `_eval_node` does not
fall through to its final `raise`. -/
def allowedTop (O : MathOracle) (plugins : String → Option PyFunc) :
    PyExpr → Bool
  | .num _ => true
  | .binOp op _ _ => SAFE_OPERATORS_bin op
  | .unaryOp op _ => SAFE_OPERATORS_un op
  | .call f _ =>
      match funcId f with
      | some n => (SAFE_FUNCTIONS O n).isSome || (plugins n).isSome
      | none => false
  | .name n => (CONSTANTS O n).isSome
  | .other => false

/-! ### Lexer for the arithmetic fragment of `ast.parse(expr, mode='eval')` -/

/-- True for characters that may start a Python identifier (ASCII
fragment). -/
def isIdentStartCh (c : Char) : Bool := c.isAlpha || c = '_'

/-- True for characters that may continue a Python identifier (ASCII
fragment). -/
def isIdentCh (c : Char) : Bool := c.isAlphanum || c = '_'

/-- True for binary digits. -/
def isBinCh (c : Char) : Bool := c = '0' || c = '1'

/-- True for octal digits. -/
def isOctCh (c : Char) : Bool := 48 ≤ c.toNat && c.toNat ≤ 55

/-- True for hexadecimal digits. -/
def isHexCh (c : Char) : Bool :=
  c.isDigit || (97 ≤ c.toNat && c.toNat ≤ 102) || (65 ≤ c.toNat && c.toNat ≤ 70)

/-- Numeric value of a digit character in any supported base. -/
def digitVal (c : Char) : ℕ :=
  if c.isDigit then c.toNat - 48
  else if 97 ≤ c.toNat && c.toNat ≤ 102 then c.toNat - 87
  else if 65 ≤ c.toNat && c.toNat ≤ 70 then c.toNat - 55
  else 0

/-- Consume a digit group matching Python's `(["_"] digit)*` (one
underscore allowed between digits, none trailing): returns the digits
with underscores removed, and the rest.  Returns `none` on a malformed
underscore. -/
def digitRun (isD : Char → Bool) : List Char → Option (List Char × List Char)
  | [] => some ([], [])
  | ['_'] => none
  | '_' :: c :: rest2 =>
      if isD c then
        match digitRun isD rest2 with
        | none => none
        | some (ds, rem) => some (c :: ds, rem)
      else none
  | c :: rest =>
      if isD c then
        match digitRun isD rest with
        | none => none
        | some (ds, rem) => some (c :: ds, rem)
      else some ([], c :: rest)

/-- Value of a digit string in the given base. -/
def natOfDigits (base : ℕ) (ds : List Char) : ℕ :=
  ds.foldl (fun a c => a * base + digitVal c) 0

/-- CPython's tokenizer rejects a numeric literal that is immediately
followed by an identifier character (`2pi`, `0x10g`, `1_000x`, ...):
there is no implicit multiplication. -/
def checkNumBoundary (v : PyVal) (rest : List Char) :
    Except PyErr (PyVal × List Char) :=
  match rest with
  | c :: _ =>
      if isIdentCh c then .error (.syntaxError "invalid decimal literal")
      else .ok (v, rest)
  | [] => .ok (v, rest)

/-- Lex a decimal literal (Python's `decinteger`, `pointfloat` or
`exponentfloat`): digits with single underscores, optional fraction,
optional exponent; a plain integer must not have leading zeros; the
literal is a float exactly when a point or an exponent is present. -/
def lexDecimal (cs : List Char) : Except PyErr (PyVal × List Char) :=
  let ipart : Option (List Char × List Char) :=
    match cs with
    | c :: _ => if c.isDigit then digitRun Char.isDigit cs else some ([], cs)
    | [] => some ([], cs)
  match ipart with
  | none => .error (.syntaxError "invalid decimal literal")
  | some (ids, r1) =>
      let fracState : Option (Bool × List Char × List Char) :=
        match r1 with
        | '.' :: r2 =>
            match r2 with
            | d :: _ =>
                if d.isDigit then
                  match digitRun Char.isDigit r2 with
                  | none => none
                  | some (fds, r3) => some (true, fds, r3)
                else some (true, [], r2)
            | [] => some (true, [], r2)
        | _ => some (false, [], r1)
      match fracState with
      | none => .error (.syntaxError "invalid decimal literal")
      | some (hasPoint, fds, r4) =>
          if ids.isEmpty && fds.isEmpty then
            .error (.syntaxError "invalid decimal literal")
          else
            let expState : Option (Bool × ℤ × List Char) :=
              match r4 with
              | c :: r5 =>
                  if c = 'e' || c = 'E' then
                    match r5 with
                    | '+' :: r6 =>
                        match digitRun Char.isDigit r6 with
                        | some (ed :: eds, r7) =>
                            some (true, (natOfDigits 10 (ed :: eds) : ℤ), r7)
                        | _ => none
                    | '-' :: r6 =>
                        match digitRun Char.isDigit r6 with
                        | some (ed :: eds, r7) =>
                            some (true, -(natOfDigits 10 (ed :: eds) : ℤ), r7)
                        | _ => none
                    | _ =>
                        match digitRun Char.isDigit r5 with
                        | some (ed :: eds, r7) =>
                            some (true, (natOfDigits 10 (ed :: eds) : ℤ), r7)
                        | _ => none
                  else some (false, 0, r4)
              | [] => some (false, 0, r4)
            match expState with
            | none => .error (.syntaxError "invalid decimal literal")
            | some (hasExp, ex, r8) =>
                if hasPoint || hasExp then
                  let mant : ℕ := natOfDigits 10 (ids ++ fds)
                  let v : ℚ := (mant : ℚ) * qpowInt 10 (ex - fds.length)
                  checkNumBoundary (.floatV v) r8
                else
                  match ids with
                  | '0' :: d :: ds =>
                      if ('0' :: d :: ds).all (fun c => c = '0') then
                        checkNumBoundary (.intV 0) r8
                      else
                        .error (.syntaxError
                          "leading zeros in decimal integer literals are not permitted")
                  | _ => checkNumBoundary (.intV (natOfDigits 10 ids)) r8

/-- Lex one numeric literal (the head of `cs` is a digit, or a dot
followed by a digit): hex/octal/binary with a `0x`/`0o`/`0b` marker,
decimal otherwise. -/
def lexNumber (cs : List Char) : Except PyErr (PyVal × List Char) :=
  match cs with
  | '0' :: c :: rest =>
      if c = 'x' || c = 'X' then
        match digitRun isHexCh rest with
        | some (d :: ds, rem) =>
            checkNumBoundary (.intV (natOfDigits 16 (d :: ds))) rem
        | _ => .error (.syntaxError "invalid hexadecimal literal")
      else if c = 'o' || c = 'O' then
        match digitRun isOctCh rest with
        | some (d :: ds, rem) =>
            checkNumBoundary (.intV (natOfDigits 8 (d :: ds))) rem
        | _ => .error (.syntaxError "invalid octal literal")
      else if c = 'b' || c = 'B' then
        match digitRun isBinCh rest with
        | some (d :: ds, rem) =>
            checkNumBoundary (.intV (natOfDigits 2 (d :: ds))) rem
        | _ => .error (.syntaxError "invalid binary literal")
      else lexDecimal cs
  | _ => lexDecimal cs

/-- Lexical token of the embedded fragment. -/
inductive Tok
  | num (v : PyVal)
  | ident (s : String)
  | plus | minus | star | dstar | slash | dslash | percent | caret | tilde
  | lparen | rparen | comma
  deriving DecidableEq

/-- Consume an identifier run. -/
def identRun (cs : List Char) : String × List Char :=
  (String.mk (cs.takeWhile isIdentCh), cs.dropWhile isIdentCh)

/-- The tokenizer loop; the fuel is decremented once per token or space,
so `length + 1` fuel always suffices. -/
def lexTokens : ℕ → List Char → Except PyErr (List Tok)
  | 0, _ => .error (.syntaxError "lexer out of fuel")
  | _, [] => .ok []
  | fuel + 1, c :: cs =>
      if c = ' ' || c = '\t' || c = '\n' || c = '\r' then lexTokens fuel cs
      else if c.isDigit then
        match lexNumber (c :: cs) with
        | .error e => .error e
        | .ok (v, rest) =>
            match lexTokens fuel rest with
            | .error e => .error e
            | .ok ts => .ok (.num v :: ts)
      else if c = '.' then
        match cs with
        | d :: _ =>
            if d.isDigit then
              match lexNumber (c :: cs) with
              | .error e => .error e
              | .ok (v, rest) =>
                  match lexTokens fuel rest with
                  | .error e => .error e
                  | .ok ts => .ok (.num v :: ts)
            else .error (.syntaxError "invalid syntax")
        | [] => .error (.syntaxError "invalid syntax")
      else if isIdentStartCh c then
        match identRun (c :: cs) with
        | (s, rest) =>
            match lexTokens fuel rest with
            | .error e => .error e
            | .ok ts => .ok (.ident s :: ts)
      else if c = '*' then
        match cs with
        | '*' :: rest =>
            match lexTokens fuel rest with
            | .error e => .error e
            | .ok ts => .ok (.dstar :: ts)
        | _ =>
            match lexTokens fuel cs with
            | .error e => .error e
            | .ok ts => .ok (.star :: ts)
      else if c = '/' then
        match cs with
        | '/' :: rest =>
            match lexTokens fuel rest with
            | .error e => .error e
            | .ok ts => .ok (.dslash :: ts)
        | _ =>
            match lexTokens fuel cs with
            | .error e => .error e
            | .ok ts => .ok (.slash :: ts)
      else
        let tok? : Option Tok :=
          if c = '+' then some .plus
          else if c = '-' then some .minus
          else if c = '%' then some .percent
          else if c = '^' then some .caret
          else if c = '~' then some .tilde
          else if c = '(' then some .lparen
          else if c = ')' then some .rparen
          else if c = ',' then some .comma
          else none
        match tok? with
        | some t =>
            match lexTokens fuel cs with
            | .error e => .error e
            | .ok ts => .ok (t :: ts)
        | none => .error (.syntaxError "invalid character")

/-- Tokenize a whole input string. -/
def tokenize (s : String) : Except PyErr (List Tok) :=
  lexTokens (s.length + 1) s.data

/-! ### Parser (Python expression grammar, restricted to the fragment)

Precedence,低 to high as in Python: `^` (bitwise xor), `+ -`,
`* / // %`, unary `- + ~`, `**` (right associative, binding tighter
than a unary operator on its left but looser on its right). -/

mutual

/-- Parse an expression (the `^` level, the lowest of the fragment). -/
def parseExpr (fuel : ℕ) (ts : List Tok) : Except PyErr (PyExpr × List Tok) :=
  match fuel with
  | 0 => .error (.syntaxError "parser out of fuel")
  | fuel + 1 =>
      match parseArith fuel ts with
      | .error e => .error e
      | .ok (l, rest) => xorLoop fuel l rest

/-- Left-associative chain of `^` operators. -/
def xorLoop (fuel : ℕ) (acc : PyExpr) (ts : List Tok) :
    Except PyErr (PyExpr × List Tok) :=
  match fuel with
  | 0 => .error (.syntaxError "parser out of fuel")
  | fuel + 1 =>
      match ts with
      | .caret :: rest =>
          match parseArith fuel rest with
          | .error e => .error e
          | .ok (r, rest2) => xorLoop fuel (.binOp .bitXor acc r) rest2
      | _ => .ok (acc, ts)

/-- Parse the additive level. -/
def parseArith (fuel : ℕ) (ts : List Tok) : Except PyErr (PyExpr × List Tok) :=
  match fuel with
  | 0 => .error (.syntaxError "parser out of fuel")
  | fuel + 1 =>
      match parseTerm fuel ts with
      | .error e => .error e
      | .ok (l, rest) => addLoop fuel l rest

/-- Left-associative chain of `+` and `-`. -/
def addLoop (fuel : ℕ) (acc : PyExpr) (ts : List Tok) :
    Except PyErr (PyExpr × List Tok) :=
  match fuel with
  | 0 => .error (.syntaxError "parser out of fuel")
  | fuel + 1 =>
      match ts with
      | .plus :: rest =>
          match parseTerm fuel rest with
          | .error e => .error e
          | .ok (r, rest2) => addLoop fuel (.binOp .add acc r) rest2
      | .minus :: rest =>
          match parseTerm fuel rest with
          | .error e => .error e
          | .ok (r, rest2) => addLoop fuel (.binOp .sub acc r) rest2
      | _ => .ok (acc, ts)

/-- Parse the multiplicative level. -/
def parseTerm (fuel : ℕ) (ts : List Tok) : Except PyErr (PyExpr × List Tok) :=
  match fuel with
  | 0 => .error (.syntaxError "parser out of fuel")
  | fuel + 1 =>
      match parseUnary fuel ts with
      | .error e => .error e
      | .ok (l, rest) => mulLoop fuel l rest

/-- Left-associative chain of `*`, `/`, `//`, `%`. -/
def mulLoop (fuel : ℕ) (acc : PyExpr) (ts : List Tok) :
    Except PyErr (PyExpr × List Tok) :=
  match fuel with
  | 0 => .error (.syntaxError "parser out of fuel")
  | fuel + 1 =>
      match ts with
      | .star :: rest =>
          match parseUnary fuel rest with
          | .error e => .error e
          | .ok (r, rest2) => mulLoop fuel (.binOp .mult acc r) rest2
      | .slash :: rest =>
          match parseUnary fuel rest with
          | .error e => .error e
          | .ok (r, rest2) => mulLoop fuel (.binOp .div acc r) rest2
      | .dslash :: rest =>
          match parseUnary fuel rest with
          | .error e => .error e
          | .ok (r, rest2) => mulLoop fuel (.binOp .floorDiv acc r) rest2
      | .percent :: rest =>
          match parseUnary fuel rest with
          | .error e => .error e
          | .ok (r, rest2) => mulLoop fuel (.binOp .mod acc r) rest2
      | _ => .ok (acc, ts)

/-- Parse a unary expression (`-`, `+`, `~` chains, then power). -/
def parseUnary (fuel : ℕ) (ts : List Tok) : Except PyErr (PyExpr × List Tok) :=
  match fuel with
  | 0 => .error (.syntaxError "parser out of fuel")
  | fuel + 1 =>
      match ts with
      | .minus :: rest =>
          match parseUnary fuel rest with
          | .error e => .error e
          | .ok (e, rest2) => .ok (.unaryOp .usub e, rest2)
      | .plus :: rest =>
          match parseUnary fuel rest with
          | .error e => .error e
          | .ok (e, rest2) => .ok (.unaryOp .uadd e, rest2)
      | .tilde :: rest =>
          match parseUnary fuel rest with
          | .error e => .error e
          | .ok (e, rest2) => .ok (.unaryOp .invert e, rest2)
      | _ => parsePow fuel ts

/-- Parse the power level: an atom, optionally followed by `**` with a
unary expression on the right (hence right associativity). -/
def parsePow (fuel : ℕ) (ts : List Tok) : Except PyErr (PyExpr × List Tok) :=
  match fuel with
  | 0 => .error (.syntaxError "parser out of fuel")
  | fuel + 1 =>
      match parseAtom fuel ts with
      | .error e => .error e
      | .ok (a, rest) =>
          match rest with
          | .dstar :: rest2 =>
              match parseUnary fuel rest2 with
              | .error e => .error e
              | .ok (b, rest3) => .ok (.binOp .pow a b, rest3)
          | _ => .ok (a, rest)

/-- Parse an atom: a literal, a call, a name, or a parenthesized
expression. -/
def parseAtom (fuel : ℕ) (ts : List Tok) : Except PyErr (PyExpr × List Tok) :=
  match fuel with
  | 0 => .error (.syntaxError "parser out of fuel")
  | fuel + 1 =>
      match ts with
      | .num v :: rest => .ok (.num v, rest)
      | .ident s :: .lparen :: rest =>
          match rest with
          | .rparen :: rest2 => .ok (.call (.name s) [], rest2)
          | _ =>
              match parseArgsList fuel rest with
              | .error e => .error e
              | .ok (args, rest2) =>
                  match rest2 with
                  | .rparen :: rest3 => .ok (.call (.name s) args, rest3)
                  | _ => .error (.syntaxError "invalid syntax")
      | .ident s :: rest => .ok (.name s, rest)
      | .lparen :: rest =>
          match parseExpr fuel rest with
          | .error e => .error e
          | .ok (e, rest2) =>
              match rest2 with
              | .rparen :: rest3 => .ok (e, rest3)
              | _ => .error (.syntaxError "invalid syntax")
      | _ => .error (.syntaxError "invalid syntax")

/-- Parse a nonempty comma-separated argument list (a trailing comma
before the closing parenthesis is allowed, as in Python). -/
def parseArgsList (fuel : ℕ) (ts : List Tok) :
    Except PyErr (List PyExpr × List Tok) :=
  match fuel with
  | 0 => .error (.syntaxError "parser out of fuel")
  | fuel + 1 =>
      match parseExpr fuel ts with
      | .error e => .error e
      | .ok (e, rest) =>
          match rest with
          | .comma :: rest2 =>
              match rest2 with
              | .rparen :: _ => .ok ([e], rest2)
              | _ =>
                  match parseArgsList fuel rest2 with
                  | .error e => .error e
                  | .ok (es, rest3) => .ok (e :: es, rest3)
          | _ => .ok ([e], rest)

end

/-- The embedded `ast.parse(expr, mode='eval')`: tokenize, parse one
expression, and require that the whole input was consumed. -/
def ast_parse (s : String) : Except PyErr PyExpr :=
  match tokenize s with
  | .error e => .error e
  | .ok ts =>
      match parseExpr (8 * ts.length + 8) ts with
      | .error e => .error e
      | .ok (e, []) => .ok e
      | .ok (_, _ :: _) => .error (.syntaxError "invalid syntax")

/-- The `eval_expr` of `calc.py`: parse and evaluate inside a
`try/except Exception` that re-raises every failure as
`ValueError(f"Invalid expression: {e}")`. -/
def eval_expr (O : MathOracle) (plugins : String → Option PyFunc)
    (s : String) : Except PyErr PyVal :=
  match ast_parse s with
  | .error e => .error (.valueError ("Invalid expression: " ++ pyMessage e))
  | .ok node =>
      match _eval_node O plugins node with
      | .ok v => .ok v
      | .error e => .error (.valueError ("Invalid expression: " ++ pyMessage e))

/-- Placeholder oracle used by concrete witnesses and counterexamples:
its values never influence any property proved below (all general
theorems are quantified over every oracle). -/
def O0 : MathOracle :=
  ⟨fun _ => 0, fun _ => 0, fun _ => 0, fun _ => 0, fun _ => 0,
   fun _ _ => 0, 0, 0⟩

/-- A plugin registry in which a plugin file registered a callable named
`sqrt`, colliding with the built-in `math.sqrt`. -/
def sqrtPlugin : String → Option PyFunc :=
  fun n => if n = "sqrt" then some (fun _ => .ok (.intV 999)) else none

/-! ### Helper lemmas -/

/-- Bounds of `Int.fmod` for a negative divisor: the result lies in
`(b, 0]`, so its sign follows the divisor. -/
theorem fmod_bounds_of_neg (a : ℤ) {b : ℤ} (hb : b < 0) :
    b < a.fmod b ∧ a.fmod b ≤ 0 := by
  cases b with
  | ofNat k => exact absurd hb (by simp)
  | negSucc n =>
      cases a with
      | ofNat m =>
          cases m with
          | zero =>
              rw [show ((Int.ofNat 0).fmod (Int.negSucc n)) = 0 from rfl]
              exact ⟨hb, le_rfl⟩
          | succ m =>
              rw [show ((Int.ofNat (m + 1)).fmod (Int.negSucc n)) =
                    Int.subNatNat (m % (n + 1)) n from rfl,
                  Int.subNatNat_eq_coe, Int.negSucc_eq]
              have h2 : m % (n + 1) < n + 1 := Nat.mod_lt _ (Nat.succ_pos n)
              have h3 : ((m % (n + 1) : ℕ) : ℤ) < ((n : ℤ) + 1) := by
                exact_mod_cast h2
              constructor <;> linarith
      | negSucc m =>
          rw [show ((Int.negSucc m).fmod (Int.negSucc n)) =
                -(Int.ofNat ((m + 1) % (n + 1))) from rfl, Int.negSucc_eq,
              Int.ofNat_eq_natCast]
          have h2 : (m + 1) % (n + 1) < n + 1 := Nat.mod_lt _ (Nat.succ_pos n)
          have h3 : (((m + 1) % (n + 1) : ℕ) : ℤ) < ((n : ℤ) + 1) := by
            exact_mod_cast h2
          have h4 : (0 : ℤ) ≤ (((m + 1) % (n + 1) : ℕ) : ℤ) := Int.natCast_nonneg _
          constructor <;> linarith

/-- Bounds of the rational floor modulo for a positive divisor. -/
theorem qmod_bounds_pos (x : ℚ) {y : ℚ} (hy : 0 < y) :
    0 ≤ x - y * (⌊x / y⌋ : ℤ) ∧ x - y * (⌊x / y⌋ : ℤ) < y := by
  have h1 := Int.sub_floor_div_mul_nonneg x hy
  have h2 := Int.sub_floor_div_mul_lt x hy
  constructor <;> linarith

/-- Bounds of the rational floor modulo for a negative divisor. -/
theorem qmod_bounds_neg (x : ℚ) {y : ℚ} (hy : y < 0) :
    y < x - y * (⌊x / y⌋ : ℤ) ∧ x - y * (⌊x / y⌋ : ℤ) ≤ 0 := by
  have hz : 0 < -y := by linarith
  have hq : x / y = (-x) / (-y) := by rw [neg_div_neg_eq]
  have h1 := Int.sub_floor_div_mul_nonneg (-x) hz
  have h2 := Int.sub_floor_div_mul_lt (-x) hz
  rw [hq]
  constructor <;> nlinarith [h1, h2]

/-- A Python callable declared with one positional parameter raises
`TypeError` on every other argument count. -/
theorem arity1_err (msg : String) (g : PyVal → Except PyErr PyVal)
    (vs : List PyVal) (h : vs.length ≠ 1) :
    arity1 msg g vs = .error (.typeError msg) := by
  match vs with
  | [] => rfl
  | [a] => exact absurd rfl h
  | a :: b :: t => rfl

/-- A Python callable accepting one or two positional arguments raises
`TypeError` on every other argument count. -/
theorem arity12_err (msg : String) (g1 : PyVal → Except PyErr PyVal)
    (g2 : PyVal → PyVal → Except PyErr PyVal)
    (vs : List PyVal) (h1 : vs.length ≠ 1) (h2 : vs.length ≠ 2) :
    arity12 msg g1 g2 vs = .error (.typeError msg) := by
  match vs with
  | [] => rfl
  | [a] => exact absurd rfl h1
  | [a, b] => exact absurd rfl h2
  | a :: b :: c :: t => rfl

/-! ### Claim theorems -/

/-- C1: for every input string the parse-and-evaluate pipeline
(`eval_expr`) either returns a number or fails with a typed error value
(it is a total function, so it never crashes the process), and every
expression-tree node whose outermost shape is not a numeric literal, an
allowed unary op, an allowed binary op, a call to a registered function,
or a reference to a registered constant makes `_eval_node` fail with an
error. -/
theorem c1_allowlist_safety (O : MathOracle) (plugins : String → Option PyFunc) :
    (∀ s : String, (∃ v, eval_expr O plugins s = .ok v) ∨
      (∃ e, eval_expr O plugins s = .error e)) ∧
    (∀ node : PyExpr, allowedTop O plugins node = false →
      ∃ e, _eval_node O plugins node = .error e) := by
  constructor
  · intro s
    cases h : eval_expr O plugins s with
    | ok v => exact .inl ⟨v, rfl⟩
    | error e => exact .inr ⟨e, rfl⟩
  · intro node hn
    cases node with
    | num v => simp [allowedTop] at hn
    | binOp op l r =>
        simp only [allowedTop] at hn
        cases hl : _eval_node O plugins l with
        | error e => exact ⟨e, by simp [_eval_node, hl]⟩
        | ok lv =>
            cases hr : _eval_node O plugins r with
            | error e => exact ⟨e, by simp [_eval_node, hl, hr]⟩
            | ok rv =>
                exact ⟨.valueError "Unsafe or unsupported expression.",
                  by simp [_eval_node, hl, hr, hn]⟩
    | unaryOp op x =>
        simp only [allowedTop] at hn
        cases hx : _eval_node O plugins x with
        | error e => exact ⟨e, by simp [_eval_node, hx]⟩
        | ok v =>
            exact ⟨.valueError "Unsafe or unsupported expression.",
              by simp [_eval_node, hx, hn]⟩
    | call f args =>
        simp only [allowedTop] at hn
        cases ha : evalArgs O plugins args with
        | error e => exact ⟨e, by simp [_eval_node, ha]⟩
        | ok vs =>
            cases hf : funcId f with
            | none =>
                exact ⟨.valueError "Unsafe or unsupported expression.",
                  by simp [_eval_node, ha, hf]⟩
            | some n =>
                rw [hf] at hn
                cases hS : SAFE_FUNCTIONS O n with
                | some g => simp [hS] at hn
                | none =>
                    cases hP : plugins n with
                    | some g => simp [hS, hP] at hn
                    | none =>
                        exact ⟨.valueError "Unsafe or unsupported expression.",
                          by simp [_eval_node, ha, hf, hS, hP]⟩
    | name n =>
        simp only [allowedTop] at hn
        cases hC : CONSTANTS O n with
        | some v => simp [hC] at hn
        | none =>
            exact ⟨.valueError "Unsafe or unsupported expression.",
              by simp [_eval_node, hC]⟩
    | other =>
        exact ⟨.valueError "Unsafe or unsupported expression.",
          by simp [_eval_node]⟩

/-- Witness for C1 at a concrete disallowed node: a `BinOp` labelled
`BitXor` (which `ast.parse` produces for `^`) is outside the allow-list
and evaluates to an error. -/
theorem c1_allowlist_safety_witness :
    allowedTop O0 noPlugins (.binOp .bitXor (.num (.intV 2)) (.num (.intV 3))) = false ∧
    ∃ e, _eval_node O0 noPlugins
        (.binOp .bitXor (.num (.intV 2)) (.num (.intV 3))) = .error e :=
  ⟨by decide, (c1_allowlist_safety O0 noPlugins).2
      (.binOp .bitXor (.num (.intV 2)) (.num (.intV 3))) (by decide)⟩

/-- C10: `eval_expr` has a single error channel: for every input string
and every registry state it either returns a value or fails with exactly
a `ValueError` whose message begins with `"Invalid expression: "` —
every failure arising during parsing or tree evaluation (including
division by zero and any exception raised by a registered plugin
callable, since the plugin registry is universally quantified) is
re-wrapped into that `ValueError`. -/
theorem c10_single_error_channel (O : MathOracle)
    (plugins : String → Option PyFunc) (s : String) :
    (∃ v, eval_expr O plugins s = .ok v) ∨
    (∃ m, eval_expr O plugins s =
      .error (.valueError ("Invalid expression: " ++ m))) := by
  cases hp : ast_parse s with
  | error e => exact .inr ⟨pyMessage e, by simp [eval_expr, hp]⟩
  | ok node =>
      cases he : _eval_node O plugins node with
      | ok v => exact .inl ⟨v, by simp [eval_expr, hp, he]⟩
      | error e => exact .inr ⟨pyMessage e, by simp [eval_expr, hp, he]⟩

/-- C9: the constant and function namespaces are disjoint at lookup: a
`Name` node consults only `CONSTANTS` (so a name registered only as a
function fails as a bare reference, never auto-invoked), and a `Call`
consults only `SAFE_FUNCTIONS` and `PLUGINS` (so a name registered only
as a constant fails as a callee). -/
theorem c9_disjoint_namespaces (O : MathOracle)
    (plugins : String → Option PyFunc) :
    (∀ n : String, CONSTANTS O n = none →
      _eval_node O plugins (.name n) =
        .error (.valueError "Unsafe or unsupported expression.")) ∧
    (∀ (n : String) (args : List PyExpr) (vs : List PyVal),
      SAFE_FUNCTIONS O n = none → plugins n = none →
      evalArgs O plugins args = .ok vs →
      _eval_node O plugins (.call (.name n) args) =
        .error (.valueError "Unsafe or unsupported expression.")) := by
  constructor
  · intro n hC
    simp [_eval_node, hC]
  · intro n args vs hS hP ha
    simp [_eval_node, ha, funcId, hS, hP]

/-- Witness for C9: `sqrt` is registered only as a function, so the bare
reference `sqrt` fails; `pi` is registered only as a constant, so the
call `pi()` fails. -/
theorem c9_disjoint_namespaces_witness :
    (CONSTANTS O0 "sqrt" = none ∧
      _eval_node O0 noPlugins (.name "sqrt") =
        .error (.valueError "Unsafe or unsupported expression.")) ∧
    (SAFE_FUNCTIONS O0 "pi" = none ∧ noPlugins "pi" = none ∧
      _eval_node O0 noPlugins (.call (.name "pi") []) =
        .error (.valueError "Unsafe or unsupported expression.")) :=
  ⟨⟨by decide, (c9_disjoint_namespaces O0 noPlugins).1 "sqrt" (by decide)⟩,
   ⟨rfl, rfl, (c9_disjoint_namespaces O0 noPlugins).2 "pi" [] [] rfl rfl rfl⟩⟩

/-- C5 counterexample: with a plugin registered under the built-in name
`sqrt`, the call `sqrt(16)` still invokes the built-in (whose result is
the oracle's float), not the plugin's callable (which would return the
int 999) — `_eval_node` checks `SAFE_FUNCTIONS` before `PLUGINS`. -/
theorem c5_shadowing_counterexample :
    _eval_node O0 sqrtPlugin (.call (.name "sqrt") [.num (.intV 16)]) =
      .ok (.floatV (O0.sqrt 16)) ∧
    _eval_node O0 sqrtPlugin (.call (.name "sqrt") [.num (.intV 16)]) ≠
      .ok (.intV 999) := by
  constructor
  · decide
  · decide

/-- C5 (amended): a `Call` to a name present in `SAFE_FUNCTIONS` always
invokes the built-in, regardless of the plugin registry — a plugin can
never shadow a built-in; last-registration-wins holds only among the
plugins themselves (`PLUGINS[attr] = obj` overwrites earlier plugin
entries). -/
theorem c5_builtin_precedence :
    (∀ (O : MathOracle) (plugins : String → Option PyFunc) (n : String)
        (f : PyFunc) (args : List PyExpr) (vs : List PyVal),
        SAFE_FUNCTIONS O n = some f → evalArgs O plugins args = .ok vs →
        _eval_node O plugins (.call (.name n) args) = f vs) ∧
    (∀ (l : List (String × PyFunc)) (n : String) (f : PyFunc),
        registerPlugins (l ++ [(n, f)]) n = some f) := by
  constructor
  · intro O plugins n f args vs hS ha
    simp [_eval_node, ha, funcId, hS]
  · intro l n f
    simp [registerPlugins, List.foldl_append]

/-- Witness for C5 at the colliding name `sqrt`: the built-in
`math.sqrt` wins over the plugin, and a second plugin registration of
the same name wins over the first. -/
theorem c5_builtin_precedence_witness :
    _eval_node O0 sqrtPlugin (.call (.name "sqrt") [.num (.intV 16)]) =
      mathSqrt O0 [.intV 16] ∧
    registerPlugins ([("sqrt", fun _ => .ok (.intV 1))] ++
        [("sqrt", fun _ => .ok (.intV 2))]) "sqrt" =
      some (fun _ => .ok (.intV 2)) :=
  ⟨c5_builtin_precedence.1 O0 sqrtPlugin "sqrt" (mathSqrt O0)
      [.num (.intV 16)] [.intV 16] rfl rfl,
   c5_builtin_precedence.2 [("sqrt", fun _ => .ok (.intV 1))] "sqrt"
      (fun _ => .ok (.intV 2))⟩

/-- C6 counterexample: `log(8, 2)` evaluates successfully (CPython's
`math.log` takes an optional second base argument), refuting the claim
that every call of `log` with 2 arguments fails with an arity error. -/
theorem c6_arity_counterexample :
    exceptIsOk (_eval_node O0 noPlugins
      (.call (.name "log") [.num (.intV 8), .num (.intV 2)])) = true := by
  decide

/-- C6 (amended): `sin`, `cos`, `tan`, `sqrt` and `abs` accept exactly
one argument, while `log` and `round` accept one or two; any other
argument count fails with a `TypeError` (arity mismatch) — in
particular `sqrt(16, 2)` fails — and `log(8, 2)` succeeds for every
oracle and registry. -/
theorem c6_builtin_arity :
    (∀ (O : MathOracle) (vs : List PyVal), vs.length ≠ 1 →
        (∃ m, mathSin O vs = .error (.typeError m)) ∧
        (∃ m, mathCos O vs = .error (.typeError m)) ∧
        (∃ m, mathTan O vs = .error (.typeError m)) ∧
        (∃ m, mathSqrt O vs = .error (.typeError m)) ∧
        (∃ m, pyAbs vs = .error (.typeError m))) ∧
    (∀ vs : List PyVal, vs.length ≠ 1 → vs.length ≠ 2 →
        (∀ O : MathOracle, ∃ m, mathLog O vs = .error (.typeError m)) ∧
        (∃ m, pyRound vs = .error (.typeError m))) ∧
    (∃ m, _eval_node O0 noPlugins
        (.call (.name "sqrt") [.num (.intV 16), .num (.intV 2)]) =
          .error (.typeError m)) ∧
    (∀ (O : MathOracle) (plugins : String → Option PyFunc),
        ∃ v, _eval_node O plugins
          (.call (.name "log") [.num (.intV 8), .num (.intV 2)]) = .ok v) := by
  refine ⟨?_, ?_, ?_, ?_⟩
  · intro O vs h
    exact ⟨⟨_, arity1_err _ _ vs h⟩, ⟨_, arity1_err _ _ vs h⟩,
      ⟨_, arity1_err _ _ vs h⟩, ⟨_, arity1_err _ _ vs h⟩,
      ⟨_, arity1_err _ _ vs h⟩⟩
  · intro vs h1 h2
    exact ⟨fun O => ⟨_, arity12_err _ _ _ vs h1 h2⟩,
      ⟨_, arity12_err _ _ _ vs h1 h2⟩⟩
  · exact ⟨"math.sqrt() takes exactly one argument", by decide⟩
  · intro O plugins
    exact ⟨.floatV (O.log ((8 : ℤ) : ℚ) / O.log ((2 : ℤ) : ℚ)), rfl⟩

/-- Witness for C6 at concrete argument counts: `sin()` with no
arguments and `log(1, 2, 3)` with three arguments both raise
`TypeError`. -/
theorem c6_builtin_arity_witness :
    (∃ m, mathSin O0 [] = .error (.typeError m)) ∧
    (∃ m, mathLog O0 [.intV 1, .intV 2, .intV 3] = .error (.typeError m)) :=
  ⟨(c6_builtin_arity.1 O0 [] (by decide)).1,
   (c6_builtin_arity.2.1 [.intV 1, .intV 2, .intV 3]
      (by decide) (by decide)).1 O0⟩

/-- C2 counterexample: evaluating the parse of `"2 ^ 3 ^ 2"` does not
return 512.0 — in Python's grammar `^` is bitwise xor, `ast.parse`
produces a `BinOp` labelled `BitXor`, and that operator class is not in
`SAFE_OPERATORS`, so the pipeline fails. -/
theorem c2_pow_counterexample :
    eval_expr O0 noPlugins "2 ^ 3 ^ 2" =
      .error (.valueError "Invalid expression: Unsafe or unsupported expression.") := by
  decide

/-- C2 (amended): `"2 ^ 3 ^ 2"` fails (the `^` of the spec's grammar is
`BitXor` in Python, outside the allow-list); exponentiation is written
`**`, and `"2 ** 3 ** 2"` evaluates — right-associatively, as
`2 ** (3 ** 2)` — to the integer 512 (not the float 512.0, since all
operands are int literals). -/
theorem c2_pow_right_assoc (O : MathOracle) (plugins : String → Option PyFunc) :
    eval_expr O plugins "2 ^ 3 ^ 2" =
      .error (.valueError "Invalid expression: Unsafe or unsupported expression.") ∧
    eval_expr O plugins "2 ** 3 ** 2" = .ok (.intV 512) :=
  ⟨rfl, rfl⟩

/-- C3 counterexample: evaluating `1 / 0` fails with
`ZeroDivisionError` (surfaced by `eval_expr` as a `ValueError`), rather
than returning an IEEE-754 infinity. -/
theorem c3_div_zero_counterexample :
    _eval_node O0 noPlugins
        (.binOp .div (.num (.intV 1)) (.num (.intV 0))) =
      .error (.zeroDivisionError "division by zero") ∧
    eval_expr O0 noPlugins "1/0" =
      .error (.valueError "Invalid expression: division by zero") := by
  constructor
  · decide
  · decide

/-- C3 (amended): for every pair of operands, evaluating a division or
modulo whose right operand evaluates to zero fails with
`ZeroDivisionError` (CPython raises for int and float operands alike;
no IEEE-754 infinity or NaN is produced). -/
theorem c3_div_mod_zero (O : MathOracle) (plugins : String → Option PyFunc)
    (a b : PyVal) (hb : b.toQ = 0) :
    (∃ m, _eval_node O plugins (.binOp .div (.num a) (.num b)) =
        .error (.zeroDivisionError m)) ∧
    (∃ m, _eval_node O plugins (.binOp .mod (.num a) (.num b)) =
        .error (.zeroDivisionError m)) := by
  have hd : _eval_node O plugins (.binOp .div (.num a) (.num b)) = pyDiv a b := by
    simp [_eval_node, applyBin, SAFE_OPERATORS_bin]
  have hm : _eval_node O plugins (.binOp .mod (.num a) (.num b)) = pyMod a b := by
    simp [_eval_node, applyBin, SAFE_OPERATORS_bin]
  rw [hd, hm]
  cases b with
  | intV j =>
      have hj : j = 0 := by
        simp only [PyVal.toQ] at hb
        exact_mod_cast hb
      cases a with
      | intV i => exact ⟨⟨"division by zero", by simp [pyDiv, hj]⟩,
          ⟨"integer modulo by zero", by simp [pyMod, hj]⟩⟩
      | floatV x => exact ⟨⟨"float division by zero", by simp [pyDiv, PyVal.toQ, hj]⟩,
          ⟨"float modulo", by simp [pyMod, PyVal.toQ, hj]⟩⟩
  | floatV y =>
      have hy : y = 0 := by simpa [PyVal.toQ] using hb
      cases a with
      | intV i => exact ⟨⟨"float division by zero", by simp [pyDiv, PyVal.toQ, hy]⟩,
          ⟨"float modulo", by simp [pyMod, PyVal.toQ, hy]⟩⟩
      | floatV x => exact ⟨⟨"float division by zero", by simp [pyDiv, PyVal.toQ, hy]⟩,
          ⟨"float modulo", by simp [pyMod, PyVal.toQ, hy]⟩⟩

/-- Witness for C3 at the concrete operands `1` and `0`. -/
theorem c3_div_mod_zero_witness :
    (∃ m, _eval_node O0 noPlugins
        (.binOp .div (.num (.intV 1)) (.num (.intV 0))) =
          .error (.zeroDivisionError m)) ∧
    (∃ m, _eval_node O0 noPlugins
        (.binOp .mod (.num (.intV 1)) (.num (.intV 0))) =
          .error (.zeroDivisionError m)) :=
  c3_div_mod_zero O0 noPlugins (.intV 1) (.intV 0) (by decide)

/-- C4 counterexample: `(-7) % 2` evaluates to `1`, which is positive
while the dividend `-7` is negative — the sign of Python's `%` follows
the divisor, not the dividend as fmod semantics would demand. -/
theorem c4_mod_sign_counterexample :
    _eval_node O0 noPlugins
        (.binOp .mod (.num (.intV (-7))) (.num (.intV 2))) =
      .ok (.intV 1) ∧
    (-7 : ℤ) < 0 ∧ (0 : ℤ) < 1 := by
  constructor
  · decide
  · exact ⟨by decide, by decide⟩

/-- C4 (amended): for operands with a nonzero right operand, `%`
evaluates to a floor-modulo remainder whose sign follows the divisor
(the right operand): the result lies in `[0, r)` for positive `r` and
in `(r, 0]` for negative `r` — Python's convention, not fmod's. -/
theorem c4_mod_sign (O : MathOracle) (plugins : String → Option PyFunc)
    (a b : PyVal) (hb : b.toQ ≠ 0) :
    ∃ v, _eval_node O plugins (.binOp .mod (.num a) (.num b)) = .ok v ∧
      (0 < b.toQ → 0 ≤ v.toQ ∧ v.toQ < b.toQ) ∧
      (b.toQ < 0 → b.toQ < v.toQ ∧ v.toQ ≤ 0) := by
  have hm : _eval_node O plugins (.binOp .mod (.num a) (.num b)) = pyMod a b := by
    simp [_eval_node, applyBin, SAFE_OPERATORS_bin]
  rw [hm]
  cases a with
  | intV i =>
      cases b with
      | intV j =>
          simp only [PyVal.toQ] at hb ⊢
          have hj : j ≠ 0 := by exact_mod_cast hb
          refine ⟨.intV (i.fmod j), by simp [pyMod, hj], ?_, ?_⟩
          · intro hpos
            have hjp : 0 < j := by exact_mod_cast hpos
            have h1 := Int.fmod_nonneg' i hjp
            have h2 := Int.fmod_lt_of_pos i hjp
            simp only [PyVal.toQ]
            exact ⟨by exact_mod_cast h1, by exact_mod_cast h2⟩
          · intro hneg
            have hjn : j < 0 := by exact_mod_cast hneg
            have h12 := fmod_bounds_of_neg i hjn
            simp only [PyVal.toQ]
            exact ⟨by exact_mod_cast h12.1, by exact_mod_cast h12.2⟩
      | floatV y =>
          simp only [PyVal.toQ] at hb ⊢
          refine ⟨.floatV (((i : ℚ)) - y * (⌊(i : ℚ) / y⌋ : ℤ)),
            by simp [pyMod, PyVal.toQ, hb], ?_, ?_⟩
          · intro hpos
            simpa [PyVal.toQ] using qmod_bounds_pos (x := (i : ℚ)) hpos
          · intro hneg
            simpa [PyVal.toQ] using qmod_bounds_neg (x := (i : ℚ)) hneg
  | floatV x =>
      cases b with
      | intV j =>
          simp only [PyVal.toQ] at hb ⊢
          refine ⟨.floatV (x - (j : ℚ) * (⌊x / (j : ℚ)⌋ : ℤ)),
            by simp [pyMod, PyVal.toQ, hb], ?_, ?_⟩
          · intro hpos
            simpa [PyVal.toQ] using qmod_bounds_pos (x := x) hpos
          · intro hneg
            simpa [PyVal.toQ] using qmod_bounds_neg (x := x) hneg
      | floatV y =>
          simp only [PyVal.toQ] at hb ⊢
          refine ⟨.floatV (x - y * (⌊x / y⌋ : ℤ)),
            by simp [pyMod, PyVal.toQ, hb], ?_, ?_⟩
          · intro hpos
            simpa [PyVal.toQ] using qmod_bounds_pos (x := x) hpos
          · intro hneg
            simpa [PyVal.toQ] using qmod_bounds_neg (x := x) hneg

/-- Witness for C4 at the concrete operands `-7` and `2`. -/
theorem c4_mod_sign_witness :
    ∃ v, _eval_node O0 noPlugins
        (.binOp .mod (.num (.intV (-7))) (.num (.intV 2))) = .ok v ∧
      (0 < (PyVal.intV 2).toQ → 0 ≤ v.toQ ∧ v.toQ < (PyVal.intV 2).toQ) ∧
      ((PyVal.intV 2).toQ < 0 → (PyVal.intV 2).toQ < v.toQ ∧ v.toQ ≤ 0) :=
  c4_mod_sign O0 noPlugins (.intV (-7)) (.intV 2) (by decide)

/-- C7 counterexample: `eval_expr "3 + 4"` returns the integer `7`,
which is not a floating-point value. -/
theorem c7_float_counterexample :
    eval_expr O0 noPlugins "3 + 4" = .ok (.intV 7) ∧
    (PyVal.intV 7).isFloatV = false ∧ PyVal.intV 7 ≠ PyVal.floatV 7 := by
  refine ⟨by decide, by decide, by decide⟩

/-- C7 (amended): not every literal and result is floating-point: an
integer literal evaluates to a Python int (`ast.Num`'s value as
parsed), the sum of two int literals is their integer sum, and
evaluating the parse of `"3 + 4"` produces the integer `7`, not the
float `7.0`.  (Other operations can still produce floats from int
operands — e.g. true division — which is why only these integer-valued
facts are claimed.) -/
theorem c7_int_arithmetic (O : MathOracle) (plugins : String → Option PyFunc)
    (i j : ℤ) :
    _eval_node O plugins (.num (.intV i)) = .ok (.intV i) ∧
    _eval_node O plugins (.binOp .add (.num (.intV i)) (.num (.intV j))) =
      .ok (.intV (i + j)) ∧
    eval_expr O plugins "3 + 4" = .ok (.intV 7) :=
  ⟨rfl, rfl, rfl⟩

/-- C8 counterexample: `"0x10"` does not fail with a `SyntaxError` — it
parses as a hexadecimal literal and evaluates to the integer 16. -/
theorem c8_literal_counterexample :
    eval_expr O0 noPlugins "0x10" = .ok (.intV 16) ∧
    exceptIsOk (eval_expr O0 noPlugins "0x10") = true := by
  refine ⟨by decide, by decide⟩

/-- C8 (amended): numeric literals follow Python's literal syntax, which
is wider than plain decimals: hex literals (`0x10` = 16) and underscore
separators (`1_000` = 1000) are accepted; implicit multiplication is
still absent (`2pi` is a syntax error, surfaced by `eval_expr` as a
`ValueError`). -/
theorem c8_literal_syntax (O : MathOracle) (plugins : String → Option PyFunc) :
    eval_expr O plugins "0x10" = .ok (.intV 16) ∧
    eval_expr O plugins "1_000" = .ok (.intV 1000) ∧
    eval_expr O plugins "2pi" =
      .error (.valueError "Invalid expression: invalid decimal literal") :=
  ⟨rfl, rfl, rfl⟩

end PythonCalc
